import Mathlib

/-!
Verification of the real-time joint-state synchronization hook
(useRealTimeJoints): a shallow embedding of the hook's mutable refs
(wsRef, reconnectTimeoutRef, isConnectedRef), its callbacks
(connectWebSocket, disconnect, updateJointValues) and the per-socket
event handlers (onopen, onmessage, onclose, onerror), together with
theorems settling the frozen claims about it.

Modelling conventions, faithful to the source:
- The asynchronous health probe inside connectWebSocket is resolved by a
  Boolean parameter giving the probe outcome; the rest of connectWebSocket
  runs on that outcome exactly as the source's then-callback does.
- Every socket ever constructed is kept in a list; a socket records the
  value of the enabled prop captured by the closures of its handlers at
  creation time, whether close() was called on it, and whether its close
  event has already been delivered (a browser socket fires close at most
  once, and fires no events after that).
- Timers: setTimeout returns a fresh handle, recorded both in the ref and
  in the pending list; clearTimeout removes a handle from the pending
  list; a timer whose handle left the pending list never runs. The source
  never nulls reconnectTimeoutRef when the timer fires, only on open and
  on disconnect, and the model preserves that.
-/

/-- A JavaScript value as it can appear as a joint value in a parsed
frame: a finite number, a non-finite number, or a non-numeric value.
The hook performs no check on these, so the embedding keeps them all. -/
inductive JSValue where
  | num (q : Rat)
  | nan
  | inf
  | negInf
  | str (s : String)
  | nullv
  | boolv (b : Bool)
deriving DecidableEq

/-- The sentinel tag of a joint-update frame, from the source's
comparison data.type === "joint_update". -/
def jointUpdateTag : String := "joint_update"

/-- An inbound WebSocket message: either a body that is not valid JSON,
or a parsed object with optional type, joints and timestamp fields
(an absent or null joints field is the falsy case of the source's
data.joints check). -/
inductive WireMsg where
  | invalidJson (raw : String)
  | parsed (jtype : Option String) (joints : Option (List (String × JSValue)))
      (timestamp : Option Rat)
deriving DecidableEq

/-- The viewer handle as the hook sees it: viewerRef.current may be
absent, may lack a setJointValue function, and when present it accepts
some joint names and throws on the others (unknown joints of the loaded
model). -/
structure Viewer where
  hasSetJointValue : Bool
  knownJoints : List String
deriving DecidableEq

/-- The raw viewer.setJointValue call: succeeds on a joint the loaded
model knows, throws otherwise. The thrown error carries the joint name. -/
def setJointValueRaw (v : Viewer) (name : String) (val : JSValue) : Except String Unit :=
  if v.knownJoints.contains name then Except.ok () else Except.error name

/-- The console.warn text emitted by the per-joint catch block. -/
def failWarning (name : String) : String := "Failed to set joint " ++ name

/-- Observable effect of applying one frame's joints: the setJointValue
invocations attempted (in order, with the exact values passed), and the
warnings logged by the per-joint catch. -/
structure ApplyLog where
  calls : List (String × JSValue)
  warnings : List String
deriving DecidableEq

/-- One iteration of the source's forEach body: attempt the call inside
try, and turn a thrown error into a logged warning. -/
def tryApplyOne (v : Viewer) (name : String) (val : JSValue) : List String :=
  match setJointValueRaw v name val with
  | Except.ok _ => []
  | Except.error e => [failWarning e]

/-- The forEach over Object.entries(joints): every entry is attempted,
a failure only adds a warning and moves on. -/
def applyJoints (v : Viewer) : List (String × JSValue) → ApplyLog
  | [] => { calls := [], warnings := [] }
  | (name, val) :: rest =>
    let tail := applyJoints v rest
    { calls := (name, val) :: tail.calls
      warnings := tryApplyOne v name val ++ tail.warnings }

/-- updateJointValues from the source: bail out silently when the viewer
is absent or does not expose a setJointValue function, otherwise apply
every entry. -/
def updateJointValues (viewer : Option Viewer) (joints : List (String × JSValue)) : ApplyLog :=
  match viewer with
  | none => { calls := [], warnings := [] }
  | some v =>
    if v.hasSetJointValue then applyJoints v joints
    else { calls := [], warnings := [] }

/-- Observable effect of the ws.onmessage handler on one message. -/
structure MsgEffect where
  calls : List (String × JSValue)
  warnings : List String
  parseErrorLogged : Bool
deriving DecidableEq

/-- The ws.onmessage handler: JSON.parse inside try (a parse failure is
logged and the message dropped), then the guard
data.type === "joint_update" && data.joints before updateJointValues. -/
def onmessage (viewer : Option Viewer) (m : WireMsg) : MsgEffect :=
  match m with
  | WireMsg.invalidJson _ => { calls := [], warnings := [], parseErrorLogged := true }
  | WireMsg.parsed jtype joints _ =>
    if jtype = some jointUpdateTag then
      match joints with
      | some js =>
        let log := updateJointValues viewer js
        { calls := log.calls, warnings := log.warnings, parseErrorLogged := false }
      | none => { calls := [], warnings := [], parseErrorLogged := false }
    else { calls := [], warnings := [], parseErrorLogged := false }

/-- The viewer calls produced by a whole inbound message stream, in
arrival order. -/
def processStream (viewer : Option Viewer) (ms : List WireMsg) : List (String × JSValue) :=
  (ms.map (fun m => (onmessage viewer m).calls)).flatten

/-- Outcome of the fetch in testServerConnection: a network error
(fetch rejected), or a response with its ok flag and whether its body
parses as JSON. -/
inductive FetchOutcome where
  | networkError
  | response (ok : Bool) (bodyParsesAsJson : Bool)
deriving DecidableEq

/-- testServerConnection from the source: false on fetch rejection,
false on a non-ok status, false when response.json() throws, true only
on an ok status with a JSON body. -/
def testServerConnection : FetchOutcome → Bool
  | FetchOutcome.networkError => false
  | FetchOutcome.response ok j => ok && j

/-- The console diagnostics of the health-check path, per outcome. -/
def healthCheckLogs : FetchOutcome → List String
  | FetchOutcome.networkError => ["Server is not reachable"]
  | FetchOutcome.response ok j =>
    if ok then
      if j then ["Server is running"] else ["Server is not reachable"]
    else ["Server health check failed"]

/-- The default value of the websocketUrl prop in the source. -/
def defaultWebsocketUrl : String := "ws://localhost:8000/ws/joint-data"

/-- The URL passed to fetch by testServerConnection. In the source this
is the hard-coded literal http://localhost:8000/health; the websocketUrl
prop is in scope in the closure but is not consulted. -/
def healthProbeUrl ( _websocketUrl : String) : String := "http://localhost:8000/health"

/-- Modelled from the spec: the spec's section 6 says the availability
probe is a GET to <base>/health derived from the configured telemetry
base URL. No such derivation exists in the source (the probe URL is a
constant there); this definition follows the spec's words: take the
configured base, strip its ws:// scheme, keep the host:port part, and
target http://<host:port>/health. -/
def specDerivedProbeUrl (base : String) : String :=
  let wsScheme : List Char := ['w', 's', ':', '/', '/']
  let rest : List Char :=
    if wsScheme.isPrefixOf base.data then base.data.drop wsScheme.length else base.data
  let host : List Char := rest.takeWhile (fun c => c != '/')
  String.mk (String.data ("http://") ++ host ++ String.data ("/health"))

/-- One WebSocket object, as the model tracks it: the enabled value its
handler closures captured at creation, whether the client called close()
on it, and whether its close event has already been delivered. -/
structure Socket where
  capturedEnabled : Bool
  closeCalled : Bool
  closeEventDone : Bool
deriving DecidableEq

/-- One setTimeout record: the enabled value its callback chain captured
(the onclose closure that scheduled it) and the delay passed. -/
structure TimerRec where
  capturedEnabled : Bool
  delayMs : Nat
deriving DecidableEq

/-- The hook's mutable state: the three refs of the source, plus the
history of sockets and timers the run has created and the set of timer
handles that are scheduled and have neither fired nor been cleared. -/
structure Sys where
  wsRef : Option Nat
  reconnectTimeoutRef : Option Nat
  isConnected : Bool
  sockets : List Socket
  timers : List TimerRec
  pendingTimers : List Nat
deriving DecidableEq

/-- State of a freshly mounted hook: all refs null, isConnected false. -/
def initState : Sys :=
  { wsRef := none, reconnectTimeoutRef := none, isConnected := false,
    sockets := [], timers := [], pendingTimers := [] }

/-- The clearTimeout-and-null steps that appear in onopen and in
disconnect: remove the referenced handle from the pending set and null
the ref. A no-op when the ref is already null. -/
def clearTimeoutRef (s : Sys) : Sys :=
  match s.reconnectTimeoutRef with
  | none => s
  | some t =>
    { s with reconnectTimeoutRef := none, pendingTimers := s.pendingTimers.erase t }

/-- connectWebSocket from the source, with the asynchronous health probe
resolved to healthOk. Guard one: if (!enabled) return. Guard two: the
then-callback returns when the probe failed. Otherwise a new WebSocket is
constructed and wsRef repointed at it. Nothing else is checked: no
already-connected test, no close of a previous socket, no timer change. -/
def connectWebSocket (enabled healthOk : Bool) (s : Sys) : Sys :=
  if !enabled then s
  else if !healthOk then s
  else
    { s with wsRef := some s.sockets.length,
             sockets := s.sockets ++
               [{ capturedEnabled := enabled, closeCalled := false, closeEventDone := false }] }

/-- The ws.onopen handler: set isConnected, then clear and null any
recorded reconnect timeout. -/
def onopen (s : Sys) : Sys :=
  clearTimeoutRef { s with isConnected := true }

/-- The ws.onerror handler: log, then mark not connected. -/
def onerror (s : Sys) : Sys :=
  { s with isConnected := false }

/-- Mark close() as called on socket i (the source's wsRef.current.close()). -/
def setCloseCalled : List Socket → Nat → List Socket
  | [], _ => []
  | sock :: rest, 0 => { sock with closeCalled := true } :: rest
  | sock :: rest, n + 1 => sock :: setCloseCalled rest n

/-- Mark the close event of socket i as delivered. -/
def setCloseDone : List Socket → Nat → List Socket
  | [], _ => []
  | sock :: rest, 0 => { sock with closeEventDone := true } :: rest
  | sock :: rest, n + 1 => sock :: setCloseDone rest n

/-- The setTimeout call of the source's onclose branch: a fresh handle,
recorded in the ref and in the pending set, with the source's literal
3000 ms delay; the callback will run connectWebSocket under the enabled
value captured by the scheduling closure. -/
def scheduleReconnect (capturedEnabled : Bool) (s : Sys) : Sys :=
  { s with reconnectTimeoutRef := some s.timers.length,
           timers := s.timers ++ [{ capturedEnabled := capturedEnabled, delayMs := 3000 }],
           pendingTimers := s.pendingTimers ++ [s.timers.length] }

/-- The ws.onclose handler of socket i, delivered with the given close
code. Runs only if that socket exists and its close event has not fired
yet. Mirrors the source: isConnected = false, wsRef = null
unconditionally, then schedule a reconnect iff the captured enabled flag
is set, reconnectTimeoutRef is null, and the code is not 1000. -/
def onclose (i code : Nat) (s : Sys) : Sys :=
  match s.sockets.get? i with
  | none => s
  | some sock =>
    if sock.closeEventDone then s
    else
      let s1 : Sys :=
        { s with isConnected := false, wsRef := none, sockets := setCloseDone s.sockets i }
      if sock.capturedEnabled && s1.reconnectTimeoutRef.isNone && (code != 1000)
      then scheduleReconnect sock.capturedEnabled s1
      else s1

/-- The wsRef.current branch of disconnect: close the referenced socket
and null the ref. -/
def closeCurrentSocket (s : Sys) : Sys :=
  match s.wsRef with
  | none => s
  | some i => { s with wsRef := none, sockets := setCloseCalled s.sockets i }

/-- disconnect from the source (the spec's stop()): clear and null any
reconnect timeout, close and null any referenced socket, mark not
connected. Total by construction: no step of it can throw. -/
def disconnect (s : Sys) : Sys :=
  let s2 := closeCurrentSocket (clearTimeoutRef s)
  { s2 with isConnected := false }

/-- A scheduled timer firing: only a handle still in the pending set can
fire; firing removes it from the pending set but, exactly as in the
source, does not null reconnectTimeoutRef; the callback then runs
connectWebSocket under the captured enabled flag, with the health probe
of that attempt resolved to healthOk. -/
def timerFire (t : Nat) (healthOk : Bool) (s : Sys) : Sys :=
  if s.pendingTimers.contains t then
    let s1 : Sys := { s with pendingTimers := s.pendingTimers.erase t }
    match s.timers.get? t with
    | some tr => connectWebSocket tr.capturedEnabled healthOk s1
    | none => s1
  else s

/-- A socket can still deliver events iff it exists and its close event
has not been delivered yet. -/
def socketActive (s : Sys) (i : Nat) : Bool :=
  match s.sockets.get? i with
  | some sock => !sock.closeEventDone
  | none => false

/-- The events a run of the hook consists of: the two caller-initiated
calls (connectWebSocket with its probe outcome, and disconnect), and the
autonomous deliveries (socket events and timer firings). -/
inductive Event where
  | callConnect (enabled healthOk : Bool)
  | sockOpen (i : Nat)
  | sockMessage (i : Nat) (m : WireMsg)
  | sockClose (i : Nat) (code : Nat)
  | sockError (i : Nat)
  | callStop
  | fireTimer (t : Nat) (healthOk : Bool)

/-- Effect of one event on the hook state. The onmessage handler reads
no ref and writes no ref, so a message event leaves the state unchanged
(its viewer effect is the separate function onmessage). -/
def stepSys (e : Event) (s : Sys) : Sys :=
  match e with
  | Event.callConnect en hk => connectWebSocket en hk s
  | Event.sockOpen i => if socketActive s i then onopen s else s
  | Event.sockMessage _ _ => s
  | Event.sockClose i code => onclose i code s
  | Event.sockError i => if socketActive s i then onerror s else s
  | Event.callStop => disconnect s
  | Event.fireTimer t hk => timerFire t hk s

/-- Run a list of events in order. -/
def runEvents (es : List Event) (s : Sys) : Sys :=
  es.foldl (fun acc e => stepSys e acc) s

/-- A socket is live while the client has neither called close() on it
nor seen its close event. -/
def Socket.live (sock : Socket) : Bool :=
  !sock.closeCalled && !sock.closeEventDone

/-- Number of live sockets at an instant. -/
def liveSocketCount (s : Sys) : Nat :=
  (s.sockets.filter Socket.live).length

/-- Whether some socket can still deliver events. -/
def hasActiveSocket (s : Sys) : Bool :=
  s.sockets.any (fun sock => !sock.closeEventDone)

/-- Events that happen without the caller doing anything. -/
def Event.isAutonomous : Event → Bool
  | Event.callConnect _ _ => false
  | Event.callStop => false
  | _ => true

/-- A state from which no autonomous event has any effect: without a new
caller-initiated start, nothing further ever happens. -/
def stuckAutonomous (s : Sys) : Prop :=
  ∀ e : Event, Event.isAutonomous e = true → stepSys e s = s

/-- The timer-handle bookkeeping invariant of reachable states: every
pending handle is the one recorded in reconnectTimeoutRef (the source
schedules only when the ref is null, so at most one timer is ever
pending, and it is the referenced one). -/
def timerInv (s : Sys) : Bool :=
  match s.reconnectTimeoutRef with
  | none => s.pendingTimers.isEmpty
  | some t => s.pendingTimers.isEmpty || s.pendingTimers == [t]

/-- Every entry of the frame is attempted, in order, with the exact
value: the calls list of applyJoints is the entries list itself. -/
theorem applyJoints_calls (v : Viewer) (js : List (String × JSValue)) :
    (applyJoints v js).calls = js := by
  induction js with
  | nil => rfl
  | cons p rest ih =>
    cases p with
    | mk name val => simp [applyJoints, ih]

/-- The warnings of applyJoints are exactly the names the viewer throws
on, in frame order. -/
theorem applyJoints_warnings (v : Viewer) (js : List (String × JSValue)) :
    (applyJoints v js).warnings =
      (js.filter (fun p => !(v.knownJoints.contains p.1))).map (fun p => failWarning p.1) := by
  induction js with
  | nil => rfl
  | cons p rest ih =>
    cases p with
    | mk name val =>
      by_cases hm : name ∈ v.knownJoints
      · simp [applyJoints, tryApplyOne, setJointValueRaw, hm, ih, List.filter_cons]
      · simp [applyJoints, tryApplyOne, setJointValueRaw, hm, ih, List.filter_cons]

/-- Rewriting a false isConnected flag to false is the identity. -/
theorem set_isConnected_false_eq (s : Sys) (h : s.isConnected = false) :
    { s with isConnected := false } = s := by
  cases s with
  | mk w r c so ti pe =>
    cases c
    · rfl
    · exact Bool.noConfusion h

/-- clearTimeoutRef on a null ref is the identity. -/
theorem clearTimeoutRef_of_none (s : Sys) (h : s.reconnectTimeoutRef = none) :
    clearTimeoutRef s = s := by
  unfold clearTimeoutRef
  rw [h]

/-- closeCurrentSocket on a null wsRef is the identity. -/
theorem closeCurrentSocket_of_none (s : Sys) (h : s.wsRef = none) :
    closeCurrentSocket s = s := by
  unfold closeCurrentSocket
  rw [h]

/-- After disconnect, the reconnect ref is null. -/
theorem disconnect_ref (s : Sys) : (disconnect s).reconnectTimeoutRef = none := by
  unfold disconnect closeCurrentSocket clearTimeoutRef
  cases h : s.reconnectTimeoutRef <;> cases h2 : s.wsRef <;> simp_all

/-- After disconnect, wsRef is null. -/
theorem disconnect_wsRef (s : Sys) : (disconnect s).wsRef = none := by
  unfold disconnect closeCurrentSocket clearTimeoutRef
  cases h : s.reconnectTimeoutRef <;> cases h2 : s.wsRef <;> simp_all

/-- After disconnect, isConnected is false. -/
theorem disconnect_isConnected (s : Sys) : (disconnect s).isConnected = false := rfl

/-- Under the timer bookkeeping invariant, disconnect leaves no pending
timer: the cleared handle was the only one. -/
theorem disconnect_pending (s : Sys) (h : timerInv s = true) :
    (disconnect s).pendingTimers = [] := by
  unfold disconnect closeCurrentSocket clearTimeoutRef
  unfold timerInv at h
  cases href : s.reconnectTimeoutRef with
  | none =>
    rw [href] at h
    have hnil : s.pendingTimers = [] := by simpa [List.isEmpty_iff] using h
    cases h2 : s.wsRef <;> simp_all
  | some t =>
    rw [href] at h
    have hcase : s.pendingTimers = [] ∨ s.pendingTimers = [t] := by
      rcases Bool.or_eq_true_iff.mp h with h1 | h1
      · exact Or.inl (by simpa [List.isEmpty_iff] using h1)
      · exact Or.inr (eq_of_beq h1)
    have herase : s.pendingTimers.erase t = [] := by
      rcases hcase with hc | hc <;> simp [hc]
    cases h2 : s.wsRef <;> simp_all

/-- In a state with no active socket, every existing socket has seen its
close event. -/
theorem closeDone_of_no_active (s : Sys) (i : Nat) (sock : Socket)
    (hno : hasActiveSocket s = false) (hget : s.sockets.get? i = some sock) :
    sock.closeEventDone = true := by
  have hmem : sock ∈ s.sockets := List.get?_mem hget
  unfold hasActiveSocket at hno
  by_contra hdone
  have hd : sock.closeEventDone = false := by
    cases hcd : sock.closeEventDone
    · rfl
    · exact absurd hcd hdone
  have hany : s.sockets.any (fun k => !k.closeEventDone) = true :=
    List.any_eq_true.mpr ⟨sock, hmem, by simp [hd]⟩
  rw [hany] at hno
  exact Bool.noConfusion hno

/-- In a state with no active socket, socketActive is false at every
index. -/
theorem socketActive_false_of_no_active (s : Sys) (i : Nat)
    (hno : hasActiveSocket s = false) : socketActive s i = false := by
  unfold socketActive
  cases hget : s.sockets.get? i with
  | none => rfl
  | some sock =>
    have hdone := closeDone_of_no_active s i sock hno hget
    simp [hdone]

/-- A state whose sockets have all delivered their close events and
whose pending-timer set is empty is stuck: no autonomous event has any
effect, so nothing further happens without a new caller-initiated
start. -/
theorem stuck_of_closed_and_no_pending (s : Sys)
    (hsock : hasActiveSocket s = false) (hpend : s.pendingTimers = []) :
    stuckAutonomous s := by
  intro e he
  cases e with
  | callConnect en hk => exact Bool.noConfusion he
  | callStop => exact Bool.noConfusion he
  | sockOpen i =>
    have hact := socketActive_false_of_no_active s i hsock
    simp [stepSys, hact]
  | sockMessage i m => rfl
  | sockClose i code =>
    show onclose i code s = s
    unfold onclose
    cases hget : s.sockets.get? i with
    | none => rfl
    | some sock =>
      have hdone := closeDone_of_no_active s i sock hsock hget
      simp [hdone]
  | sockError i =>
    have hact := socketActive_false_of_no_active s i hsock
    simp [stepSys, hact]
  | fireTimer t hk =>
    simp [stepSys, timerFire, hpend]

/-- Trace: connect (probe passes), the socket opens, and connectWebSocket
is called again while Connected, with the probe passing again. -/
def claim1TraceRecall : List Event :=
  [Event.callConnect true true, Event.sockOpen 0, Event.callConnect true true]

/-- Trace: connect and open while enabled; enabled flips to false (effect
cleanup disconnect, then the disabled effect body disconnect); enabled
flips back to true (cleanup disconnect, then connectWebSocket); only then
is the first socket's close event delivered (its handlers captured
enabled = true, close() sends no code, so the event code is 1005), which
schedules a reconnect whose timer then fires with the probe passing. -/
def claim1TraceToggle : List Event :=
  [Event.callConnect true true, Event.sockOpen 0,
   Event.callStop, Event.callStop, Event.callStop, Event.callConnect true true,
   Event.sockClose 0 1005, Event.fireTimer 0 true]

/-- C1 counterexample: connectWebSocket performs no already-active check,
so a second call while Connected yields two live sockets; and across an
enabled true-false-true toggle, a late close event of the old socket
plus the reconnect timer it schedules also yield two live sockets. -/
theorem claim1_counterexample :
    liveSocketCount (runEvents claim1TraceRecall initState) = 2 ∧
    liveSocketCount (runEvents claim1TraceToggle initState) = 2 := by
  constructor <;> decide

/-- C1 (amended): connectWebSocket is a no-op exactly when the enabled
flag it captured is false or the health probe fails; in every other
state, already connected or not, it constructs a fresh socket and
repoints wsRef at it, leaving every existing socket untouched (none is
closed), so no at-most-one-live-socket guarantee holds. -/
theorem claim1_amended : ∀ (s : Sys) (hk : Bool),
    connectWebSocket false hk s = s ∧
    connectWebSocket true false s = s ∧
    (connectWebSocket true true s).sockets =
      s.sockets ++ [{ capturedEnabled := true, closeCalled := false, closeEventDone := false }] ∧
    (connectWebSocket true true s).wsRef = some s.sockets.length ∧
    (connectWebSocket true true s).reconnectTimeoutRef = s.reconnectTimeoutRef ∧
    (connectWebSocket true true s).pendingTimers = s.pendingTimers := by
  intro s hk
  exact ⟨rfl, rfl, rfl, rfl, rfl, rfl⟩

/-- C4: for a parsed frame whose type equals the joint-update sentinel
and whose joints mapping is present, setJointValue is attempted exactly
once per entry with the exact pairs of the frame, in order; frames with
any other type produce no viewer call; and a reordering of the entries
produces the same calls up to that permutation. -/
theorem claim4_joint_update_dispatch :
    ∀ (v : Viewer) (js js2 : List (String × JSValue)) (jt : Option String) (ts ts2 : Option Rat),
    v.hasSetJointValue = true →
    (onmessage (some v) (WireMsg.parsed (some jointUpdateTag) (some js) ts)).calls = js ∧
    (jt ≠ some jointUpdateTag →
      (onmessage (some v) (WireMsg.parsed jt (some js2) ts2)).calls = []) ∧
    (List.Perm js2 js →
      List.Perm ((onmessage (some v) (WireMsg.parsed (some jointUpdateTag) (some js2) ts2)).calls) js) := by
  intro v js js2 jt ts ts2 h
  have hcalls : ∀ (l : List (String × JSValue)) (t : Option Rat),
      (onmessage (some v) (WireMsg.parsed (some jointUpdateTag) (some l) t)).calls = l := by
    intro l t
    simp [onmessage, updateJointValues, h, applyJoints_calls]
  refine ⟨hcalls js ts, ?_, ?_⟩
  · intro hne
    simp [onmessage, hne]
  · intro hperm
    rw [hcalls js2 ts2]
    exact hperm

/-- C4 witness at the spec's example frame. -/
theorem claim4_witness :
    (onmessage (some (Viewer.mk true ["elbow", "wrist"]))
        (WireMsg.parsed (some jointUpdateTag)
          (some [("elbow", JSValue.num 1), ("wrist", JSValue.num 2)]) none)).calls =
      [("elbow", JSValue.num 1), ("wrist", JSValue.num 2)] :=
  (claim4_joint_update_dispatch (Viewer.mk true ["elbow", "wrist"])
    [("elbow", JSValue.num 1), ("wrist", JSValue.num 2)]
    [("wrist", JSValue.num 2), ("elbow", JSValue.num 1)]
    (some ("other")) none none (by decide)).1

/-- A non-default telemetry base, to exhibit that the probe URL does not
depend on the configured base. -/
def exampleBase : String := "ws://robot.example:9000/ws/joint-data"

/-- C5 counterexample: for the configured base ws://robot.example:9000/
ws/joint-data the source's probe URL is still http://localhost:8000/health,
which is not the URL derived from that base per the spec's words; the two
agree only on the default base. -/
theorem claim5_counterexample :
    healthProbeUrl exampleBase = "http://localhost:8000/health" ∧
    specDerivedProbeUrl exampleBase = "http://robot.example:9000/health" ∧
    healthProbeUrl exampleBase ≠ specDerivedProbeUrl exampleBase ∧
    specDerivedProbeUrl defaultWebsocketUrl = healthProbeUrl defaultWebsocketUrl := by
  refine ⟨rfl, by decide, by decide, by decide⟩

/-- C5 (amended): the availability probe issued by start() is a GET to
the constant URL http://localhost:8000/health, independent of the
configured websocket URL, and the probe succeeds exactly on a success
status whose body parses as JSON. -/
theorem claim5_amended : ∀ (u : String) (o : FetchOutcome),
    healthProbeUrl u = healthProbeUrl defaultWebsocketUrl ∧
    healthProbeUrl u = "http://localhost:8000/health" ∧
    (testServerConnection o = true ↔ o = FetchOutcome.response true true) := by
  intro u o
  refine ⟨rfl, rfl, ?_⟩
  cases o with
  | networkError => simp [testServerConnection]
  | response ok j => cases ok <;> cases j <;> simp [testServerConnection]

/-- C6: when the health probe fails (network error or non-success
status or non-JSON body), connectWebSocket logs a diagnostic and returns
without touching the state: the client stays Disconnected with
isConnected false, no socket is created, and no reconnect is scheduled
from this path. -/
theorem claim6_health_failure : ∀ (s : Sys) (en : Bool) (o : FetchOutcome),
    s.isConnected = false → testServerConnection o = false →
    connectWebSocket en (testServerConnection o) s = s ∧
    (connectWebSocket en (testServerConnection o) s).isConnected = false ∧
    healthCheckLogs o ≠ [] := by
  intro s en o h1 h2
  have hid : connectWebSocket en (testServerConnection o) s = s := by
    rw [h2]
    cases en <;> simp [connectWebSocket]
  refine ⟨hid, by rw [hid]; exact h1, ?_⟩
  cases o with
  | networkError => simp [healthCheckLogs]
  | response ok j => cases ok <;> cases j <;> simp [healthCheckLogs]

/-- C6 witness: a rejected fetch from the fresh state. -/
theorem claim6_witness :
    connectWebSocket true (testServerConnection FetchOutcome.networkError) initState = initState ∧
    (connectWebSocket true (testServerConnection FetchOutcome.networkError) initState).isConnected = false ∧
    healthCheckLogs FetchOutcome.networkError ≠ [] :=
  claim6_health_failure initState true FetchOutcome.networkError (by decide) (by decide)

/-- C7: disconnect (the spec's stop()) is a total function, calling it
from the fresh never-started state leaves that state unchanged and
Disconnected, calling it twice is the same as calling it once, and after
it the connection refs are null and isConnected is false. -/
theorem claim7_stop_idempotent : ∀ s : Sys,
    disconnect (disconnect s) = disconnect s ∧
    disconnect initState = initState ∧
    (disconnect s).isConnected = false ∧
    (disconnect s).wsRef = none ∧
    (disconnect s).reconnectTimeoutRef = none := by
  intro s
  refine ⟨?_, rfl, disconnect_isConnected s, disconnect_wsRef s, disconnect_ref s⟩
  have h1 : clearTimeoutRef (disconnect s) = disconnect s :=
    clearTimeoutRef_of_none _ (disconnect_ref s)
  have h2 : closeCurrentSocket (disconnect s) = disconnect s :=
    closeCurrentSocket_of_none _ (disconnect_wsRef s)
  calc disconnect (disconnect s)
      = { closeCurrentSocket (clearTimeoutRef (disconnect s)) with isConnected := false } := rfl
    _ = { disconnect s with isConnected := false } := by rw [h1, h2]
    _ = disconnect s := set_isConnected_false_eq _ (disconnect_isConnected s)

/-- C8: an inbound message whose body is not valid JSON leaves the hook
state untouched (in particular the connection is not closed), produces no
viewer call, logs the parse error, and the calls produced by a stream are
exactly those of the same stream with the bad message removed: subsequent
messages keep being processed. -/
theorem claim8_invalid_json_dropped :
    ∀ (viewer : Option Viewer) (raw : String) (i : Nat) (s : Sys) (pre post : List WireMsg),
    stepSys (Event.sockMessage i (WireMsg.invalidJson raw)) s = s ∧
    (onmessage viewer (WireMsg.invalidJson raw)).calls = [] ∧
    (onmessage viewer (WireMsg.invalidJson raw)).parseErrorLogged = true ∧
    processStream viewer (pre ++ WireMsg.invalidJson raw :: post) =
      processStream viewer pre ++ processStream viewer post := by
  intro viewer raw i s pre post
  refine ⟨rfl, rfl, rfl, ?_⟩
  simp [processStream, onmessage]

/-- C9: with a viewer exposing setJointValue, every entry of the frame
is attempted, in order, no matter which joints the viewer throws on; each
failing joint only contributes one logged warning; applyJoints is a total
function, so no exception reaches the caller. -/
theorem claim9_per_joint_catch :
    ∀ (v : Viewer) (js : List (String × JSValue)),
    v.hasSetJointValue = true →
    (updateJointValues (some v) js).calls = js ∧
    (updateJointValues (some v) js).warnings =
      (js.filter (fun p => !(v.knownJoints.contains p.1))).map (fun p => failWarning p.1) := by
  intro v js h
  simp [updateJointValues, h, applyJoints_calls, applyJoints_warnings]

/-- C9 witness: the first joint is unknown to the model and throws, yet
the second entry is still attempted. -/
theorem claim9_witness :
    (updateJointValues (some (Viewer.mk true ["elbow"]))
        [("ghost", JSValue.num 0), ("elbow", JSValue.num 1)]).calls =
      [("ghost", JSValue.num 0), ("elbow", JSValue.num 1)] :=
  (claim9_per_joint_catch (Viewer.mk true ["elbow"]) _ (by decide)).1

/-- C10: every value of a processed joints mapping reaches setJointValue
verbatim: the attempted calls are exactly the entries, for every JSValue
whatsoever, so non-finite numbers and non-numeric values pass through
with no finiteness, range or type check. -/
theorem claim10_verbatim_values :
    ∀ (v : Viewer) (js : List (String × JSValue)),
    v.hasSetJointValue = true →
    (updateJointValues (some v) js).calls = js := by
  intro v js h
  simp [updateJointValues, h, applyJoints_calls]

/-- C10 witness: NaN, Infinity and a string value all reach the viewer
unchanged. -/
theorem claim10_witness :
    (updateJointValues (some (Viewer.mk true []))
        [("j", JSValue.nan), ("k", JSValue.inf), ("s", JSValue.str ("boom"))]).calls =
      [("j", JSValue.nan), ("k", JSValue.inf), ("s", JSValue.str ("boom"))] :=
  claim10_verbatim_values (Viewer.mk true []) _ (by decide)

/-- Trace: connect and open; abnormal close (1006) schedules the only
timer; the timer fires (the source never nulls reconnectTimeoutRef in
the timer callback), the probe passes and a second socket is created;
that socket closes abnormally (1006) before ever opening. -/
def claim2Trace : List Event :=
  [Event.callConnect true true, Event.sockOpen 0, Event.sockClose 0 1006,
   Event.fireTimer 0 true, Event.sockClose 1 1006]

/-- C2 counterexample: at the trace's final abnormal close the client is
still enabled and stop() was never called, yet no reconnect is scheduled
(the stale timer handle is still recorded, so the !reconnectTimeoutRef
guard fails): only one timer was ever created, nothing is pending, and
the state is stuck for every autonomous event, so the retry sequence does
not repeat indefinitely. -/
theorem claim2_counterexample :
    (runEvents claim2Trace initState).pendingTimers = [] ∧
    (runEvents claim2Trace initState).timers.length = 1 ∧
    (runEvents claim2Trace initState).reconnectTimeoutRef = some 0 ∧
    (runEvents claim2Trace initState).wsRef = none ∧
    (runEvents claim2Trace initState).isConnected = false ∧
    stuckAutonomous (runEvents claim2Trace initState) :=
  ⟨by decide, by decide, by decide, by decide, by decide,
   stuck_of_closed_and_no_pending _ (by decide) (by decide)⟩

/-- C2 (amended): a close with code 1000 never schedules a reconnect; a
close with any other code on a socket whose handlers captured
enabled = true schedules exactly one reconnect timer with the fixed
3000 ms delay, provided reconnectTimeoutRef is null at that moment; and
whenever a handle is recorded in reconnectTimeoutRef, including the stale
handle of a timer that already fired, no reconnect is scheduled at all,
so the automatic retry chain survives only attempts that reach the open
state (which nulls the ref) and ends at any attempt that fails before
opening. -/
theorem claim2_amended :
    ∀ (s : Sys) (i code : Nat) (sock : Socket),
    s.sockets.get? i = some sock → sock.closeEventDone = false →
    ((code = 1000 →
        (onclose i code s).timers = s.timers ∧
        (onclose i code s).pendingTimers = s.pendingTimers ∧
        (onclose i code s).reconnectTimeoutRef = s.reconnectTimeoutRef) ∧
     (code ≠ 1000 → sock.capturedEnabled = true → s.reconnectTimeoutRef = none →
        (onclose i code s).timers =
          s.timers ++ [{ capturedEnabled := true, delayMs := 3000 }] ∧
        (onclose i code s).pendingTimers = s.pendingTimers ++ [s.timers.length] ∧
        (onclose i code s).reconnectTimeoutRef = some s.timers.length ∧
        (onclose i code s).isConnected = false ∧
        (onclose i code s).wsRef = none) ∧
     (s.reconnectTimeoutRef ≠ none →
        (onclose i code s).timers = s.timers ∧
        (onclose i code s).pendingTimers = s.pendingTimers)) := by
  intro s i code sock hget hdone
  have hred : onclose i code s =
      (if sock.capturedEnabled && s.reconnectTimeoutRef.isNone && (code != 1000)
       then scheduleReconnect sock.capturedEnabled
              { s with isConnected := false, wsRef := none, sockets := setCloseDone s.sockets i }
       else { s with isConnected := false, wsRef := none, sockets := setCloseDone s.sockets i }) := by
    unfold onclose
    rw [hget]
    simp [hdone]
  refine ⟨?_, ?_, ?_⟩
  · intro hc
    subst hc
    simp [hred]
  · intro hne hcap href
    have hb : (code != 1000) = true := bne_iff_ne.mpr hne
    simp [hred, hcap, href, hb, scheduleReconnect]
  · intro hsome
    cases hr : s.reconnectTimeoutRef with
    | none => exact absurd hr hsome
    | some r => simp [hred, hr]

/-- A connected state: one socket, opened, nothing pending. -/
def claim2WitnessState : Sys :=
  runEvents [Event.callConnect true true, Event.sockOpen 0] initState

/-- C2 witness: at a concrete connected state, an abnormal close
schedules the 3000 ms timer and a normal close schedules nothing. -/
theorem claim2_witness :
    (onclose 0 1006 claim2WitnessState).timers =
      claim2WitnessState.timers ++ [{ capturedEnabled := true, delayMs := 3000 }] ∧
    (onclose 0 1006 claim2WitnessState).reconnectTimeoutRef =
      some claim2WitnessState.timers.length ∧
    (onclose 0 1000 claim2WitnessState).timers = claim2WitnessState.timers := by
  have h := claim2_amended claim2WitnessState 0 1006 (Socket.mk true false false)
    (by decide) (by decide)
  have h1000 := claim2_amended claim2WitnessState 0 1000 (Socket.mk true false false)
    (by decide) (by decide)
  exact ⟨(h.2.1 (by decide) (by decide) (by decide)).1,
         (h.2.1 (by decide) (by decide) (by decide)).2.2.1,
         (h1000.1 rfl).1⟩

/-- Trace: connect and open while enabled, then stop(); afterwards the
stopped socket's close event arrives with an abnormal code. -/
def claim3Trace : List Event :=
  [Event.callConnect true true, Event.sockOpen 0, Event.callStop, Event.sockClose 0 1006]

/-- C3 counterexample: a late abnormal close event delivered after
stop() schedules a reconnect timer on the stopped client (the handler
closure captured enabled = true and the ref was nulled by stop), and a
late joint-update message still drives the viewer: neither event is a
no-op. -/
theorem claim3_counterexample :
    (runEvents claim3Trace initState).pendingTimers = [0] ∧
    (runEvents claim3Trace initState).reconnectTimeoutRef = some 0 ∧
    (onmessage (some (Viewer.mk true ["elbow"]))
        (WireMsg.parsed (some jointUpdateTag) (some [("elbow", JSValue.num 1)]) none)).calls =
      [("elbow", JSValue.num 1)] :=
  ⟨by decide, by decide, by decide⟩

/-- C3 (amended): stop() cancels the pending reconnect timer, whose
firing is afterwards a no-op, so the scheduled reconnect attempt never
starts; a late message or error event on the stopped client leaves the
client state unchanged and schedules nothing; a late close event with
the normal-closure code leaves the refs null, isConnected false and
nothing pending; but (per the counterexample) a late abnormal close on a
socket created while enabled does schedule a reconnect. -/
theorem claim3_amended :
    ∀ (s : Sys) (i t code : Nat) (hk : Bool) (m : WireMsg),
    timerInv s = true →
    stepSys (Event.fireTimer t hk) (disconnect s) = disconnect s ∧
    stepSys (Event.sockMessage i m) (disconnect s) = disconnect s ∧
    stepSys (Event.sockError i) (disconnect s) = disconnect s ∧
    (code = 1000 →
      (stepSys (Event.sockClose i code) (disconnect s)).pendingTimers = [] ∧
      (stepSys (Event.sockClose i code) (disconnect s)).reconnectTimeoutRef = none ∧
      (stepSys (Event.sockClose i code) (disconnect s)).wsRef = none ∧
      (stepSys (Event.sockClose i code) (disconnect s)).isConnected = false) := by
  intro s i t code hk m hinv
  have hpend := disconnect_pending s hinv
  have href := disconnect_ref s
  have hws := disconnect_wsRef s
  have hconn := disconnect_isConnected s
  refine ⟨?_, rfl, ?_, ?_⟩
  · show timerFire t hk (disconnect s) = disconnect s
    unfold timerFire
    rw [hpend]
    simp
  · show (if socketActive (disconnect s) i then onerror (disconnect s) else disconnect s)
        = disconnect s
    cases hact : socketActive (disconnect s) i with
    | false => simp [hact]
    | true =>
      simp only [hact, if_true]
      exact set_isConnected_false_eq _ hconn
  · intro hc
    subst hc
    show (onclose i 1000 (disconnect s)).pendingTimers = [] ∧
        (onclose i 1000 (disconnect s)).reconnectTimeoutRef = none ∧
        (onclose i 1000 (disconnect s)).wsRef = none ∧
        (onclose i 1000 (disconnect s)).isConnected = false
    unfold onclose
    cases hget : (disconnect s).sockets.get? i with
    | none => exact ⟨hpend, href, hws, hconn⟩
    | some sock =>
      cases hdone : sock.closeEventDone with
      | true =>
        simp only [hdone, if_true]
        exact ⟨hpend, href, hws, hconn⟩
      | false =>
        simp [hdone, href, hpend]

/-- A stopped-with-pending-timer scenario: connect, open, abnormal close
(timer now pending). -/
def claim3WitnessState : Sys :=
  runEvents [Event.callConnect true true, Event.sockOpen 0, Event.sockClose 0 1006] initState

/-- C3 witness: at a concrete state with a pending reconnect timer,
after stop() the timer's firing is a no-op and a late normal close
leaves nothing pending. -/
theorem claim3_witness :
    stepSys (Event.fireTimer 0 true) (disconnect claim3WitnessState)
      = disconnect claim3WitnessState ∧
    (stepSys (Event.sockClose 0 1000) (disconnect claim3WitnessState)).pendingTimers = [] := by
  have h := claim3_amended claim3WitnessState 0 0 1000 true (WireMsg.invalidJson ("")) (by decide)
  exact ⟨h.1, (h.2.2.2 rfl).1⟩
